import Mathlib

/-!
Verification of the ScreenPilot research-copilot backend
(repository control-your-browser, directory server/).

Python text values are modelled as lists of characters, exceptions as an
explicit error type, and the external HTTP effects (embedding API, vector
store, completion APIs) as environment records of outcome-valued functions,
so every handler becomes a pure function of its environment and inputs.
-/

namespace ScreenPilot

/-- Python strings are sequences of code points; we model them as `List Char`. -/
abbrev Str := List Char

/-- The chunk width used by `LlamaIndexClient.build_index` and
`extract_and_store_pdf`: chunks of 1000 characters each. -/
def chunkSize : Nat := 1000

/-- The chunking step of `build_index`
(`llamaindex_client.py`): `[text[i:i+1000] for i in range(0, len(text), 1000)]`,
i.e. successive 1000-character windows of the text. -/
def buildChunks : Str → List Str
  | [] => []
  | c :: rest =>
      (c :: rest).take chunkSize :: buildChunks ((c :: rest).drop chunkSize)
termination_by t => t.length
decreasing_by
  simp only [List.length_drop, List.length_cons, chunkSize]
  omega

end ScreenPilot


namespace ScreenPilot

variable {E σ A : Type}

/-- Exception values crossing a handler boundary: a FastAPI HTTPException with
status code and detail, or any other exception carrying its message str(e). -/
inductive Exc where
  | http (status : Nat) (detail : String)
  | generic (msg : String)
deriving DecidableEq, Repr

/-- The subset of application Settings read by FriendliaiClient. -/
structure FriendliaiSettings where
  FRIENDLIAI_API_KEY : Option String
  FRIENDLIAI_ENDPOINT : Option String
  GEMINI_API_KEY : Option String
deriving DecidableEq, Repr

/-- The attributes set by FriendliaiClient.__init__. -/
structure FriendliaiClientState where
  friendliai_api_key : String
  gemini_api_key : Option String
  friendliai_base_url : String
  gemini_base_url : String
deriving DecidableEq, Repr

/-- FriendliaiClient.__init__ (friendliai_client.py lines 15-38): reads the
API keys from settings, raises ValueError when the Friendliai key is missing
or empty, and sets the base URLs; the Friendliai base URL is assigned the
hardcoded serverless constant, with no probe of FRIENDLIAI_ENDPOINT. -/
def FriendliaiClient.init (s : FriendliaiSettings) : Except String FriendliaiClientState :=
  match s.FRIENDLIAI_API_KEY with
  | none => .error "FRIENDLIAI_API_KEY environment variable is required"
  | some key =>
      if key = "" then .error "FRIENDLIAI_API_KEY environment variable is required"
      else .ok {
        friendliai_api_key := key
        gemini_api_key := s.GEMINI_API_KEY
        friendliai_base_url := "https://api.friendli.ai"
        gemini_base_url := "https://generativelanguage.googleapis.com/v1beta" }

/-- Modelled from the spec: the dedicated-endpoint resolver claimed for
FriendliaiClient construction (and asserted by test_endpoint_routing.py),
which is absent from friendliai_client.py: attempt an HTTP request to the
configured dedicated endpoint, use that endpoint when the response status is
200, and fall back to the hardcoded serverless URL on a non-200 status or an
exception; when no dedicated endpoint is configured, use the serverless URL
directly. The probe argument gives the outcome of the HTTP request. -/
def resolveBaseUrlSpec (endpointCfg : Option String)
    (probe : String → Except String Nat) : String :=
  match endpointCfg with
  | none => "https://api.friendli.ai"
  | some url =>
      if url = "" then "https://api.friendli.ai"
      else
        match probe url with
        | .ok 200 => url
        | .ok _ => "https://api.friendli.ai"
        | .error _ => "https://api.friendli.ai"

/-- FriendliaiClient.query_model (friendliai_client.py lines 40-64): try the
selected model; on any exception fall back once to the other model, whose own
failure re-raises. The primitive API calls (_query_friendliai, _query_gemini)
are abstracted as outcome-valued functions of the prompt. -/
def query_model (friendliaiCall geminiCall : Str → Except String String)
    (prompt : Str) (use_gemini : Bool) : Except String String :=
  if use_gemini then
    match geminiCall prompt with
    | .ok r => .ok r
    | .error _ => friendliaiCall prompt
  else
    match friendliaiCall prompt with
    | .ok r => .ok r
    | .error _ => geminiCall prompt

/-- The embedding loop of build_index: one get_text_embedding call per chunk,
in order, re-raising the first failure. -/
def embedChunks (embed : Str → Except String E) : List Str → Except String (List E)
  | [] => .ok []
  | c :: rest =>
      match embed c with
      | .error m => .error m
      | .ok e =>
          match embedChunks embed rest with
          | .error m => .error m
          | .ok es => .ok (e :: es)

/-- LlamaIndexClient.build_index (llamaindex_client.py lines 47-81): chunk the
text into 1000-character windows, then embed each chunk. -/
def build_index (embed : Str → Except String E) (text : Str) :
    Except String (List Str × List E) :=
  match embedChunks embed (buildChunks text) with
  | .error m => .error m
  | .ok es => .ok (buildChunks text, es)

/-- One vector record in the Weaviate PageContext collection: identifier,
chunk text and embedding (upsert_doc stores the text and uses the id as the
object uuid). -/
structure VectorRecord (E : Type) where
  id : String
  text : Str
  embedding : E
deriving DecidableEq, Repr

/-- The vector-store contents, in insertion order. -/
abbrev Store (E : Type) := List (VectorRecord E)

/-- The storage loop shared by /upload and /upload-web (main.py): upsert one
record per (chunk, embedding) pair, with the id of the i-th record given by
mkId i; the first upsert failure re-raises, keeping records already written. -/
def storeChunksFrom (upsert : String → Str → E → Except String Unit)
    (mkId : Nat → String) (i : Nat) (pairs : List (Str × E)) (store : Store E) :
    Option String × Store E :=
  match pairs with
  | [] => (none, store)
  | (c, e) :: rest =>
      match upsert (mkId i) c e with
      | .error m => (some m, store)
      | .ok _ => storeChunksFrom upsert mkId (i + 1) rest (store ++ [⟨mkId i, c, e⟩])

/-- Response model of /upload. -/
structure UploadResponse where
  status : String
  message : String
  chunks_created : Nat
deriving DecidableEq, Repr

/-- One entry of the sources list in an /ask response. -/
structure SourceEntry (σ : Type) where
  id : String
  text : Str
  relevance_score : σ
deriving DecidableEq, Repr

/-- Response model of /ask and /ask-gemini. -/
structure AskResponse (σ : Type) where
  answer : String
  trace_id : String
  sources : List (SourceEntry σ)
deriving DecidableEq, Repr

/-- Response of /upload-web. -/
structure WebUploadResponse where
  status : String
  message : String
  chunks_indexed : Nat
  url : String
deriving DecidableEq, Repr

/-- One result of weaviate query_similar as consumed by the handlers: id,
text and score (distance and source are unused there). Scores are opaque
pass-through values. -/
structure SimilarResult (σ : Type) where
  id : String
  text : Str
  score : σ
deriving DecidableEq, Repr

/-- The source-text truncation of ask_question and ask_question_gemini
(main.py): text[:200] + "..." when the text is longer than 200 characters,
otherwise the text unchanged. -/
def truncate_source_text (t : Str) : Str :=
  if 200 < t.length then t.take 200 ++ "...".toList else t

/-- The prompt template of ask_question / ask_question_gemini: the retrieved
texts joined by blank lines, spliced into the fixed instruction template. -/
def makePrompt (results : List (SimilarResult σ)) (question : Str) : Str :=
  "You are ScreenPilot, an internal research assistant.\nUse the context below to answer the question accurately.\n\nContext:\n".toList
    ++ List.intercalate "\n\n".toList (results.map (fun r => r.text))
    ++ "\n\nQuestion: ".toList ++ question ++ "\nAnswer:".toList

/-- Environment of the /ask and /ask-gemini handlers: the outcomes of the
external calls made by the pipeline (query embedding, vector search, the two
completion APIs), the application settings, and the generated trace uuid. -/
structure AskEnv (E σ : Type) where
  settings : FriendliaiSettings
  queryIndex : Except String E
  querySimilar : E → Except String (List (SimilarResult σ))
  friendliaiCall : Str → Except String String
  geminiCall : Str → Except String String
  uuid : String

/-- The fixed answer returned when the vector store has no similar chunks. -/
def noDocsAnswer : String :=
  "No relevant documents found. Please upload some PDF documents first."

/-- The shared body of ask_question and ask_question_gemini (main.py): embed
the question, retrieve similar chunks, short-circuit with the fixed answer
when none are found, otherwise build the prompt, construct the Friendliai
client and query the selected model; any step failure re-raises. -/
def ask_body (env : AskEnv E σ) (question : Str) (use_gemini : Bool) :
    Except String (AskResponse σ) :=
  match env.queryIndex with
  | .error m => .error m
  | .ok qv =>
      match env.querySimilar qv with
      | .error m => .error m
      | .ok results =>
          if results.isEmpty then
            .ok ⟨noDocsAnswer, env.uuid, []⟩
          else
            match FriendliaiClient.init env.settings with
            | .error m => .error m
            | .ok _ =>
                match query_model env.friendliaiCall env.geminiCall
                    (makePrompt results question) use_gemini with
                | .error m => .error m
                | .ok answer =>
                    .ok ⟨answer, env.uuid,
                      results.map (fun r =>
                        ⟨r.id, truncate_source_text r.text, r.score⟩)⟩

/-- The except-clause of ask_question and ask_question_gemini: every exception
is re-raised as HTTP 500 with the prefixed message (these two handlers have no
separate HTTPException clause, and their bodies raise no HTTPException). -/
def wrapCatchAll (pfx : String) (body : Except String (AskResponse σ)) :
    Except Exc (AskResponse σ) :=
  match body with
  | .ok a => .ok a
  | .error m => .error (.http 500 (pfx ++ m))

/-- POST /ask (main.py lines 162-223). -/
def ask_question (env : AskEnv E σ) (question : Str) : Except Exc (AskResponse σ) :=
  wrapCatchAll "Failed to process question: " (ask_body env question false)

/-- POST /ask-gemini (main.py lines 225-286). -/
def ask_question_gemini (env : AskEnv E σ) (question : Str) :
    Except Exc (AskResponse σ) :=
  wrapCatchAll "Failed to process question with Gemini: " (ask_body env question true)

/-- The filename check of /upload: filename.lower().endswith(".pdf"). -/
def isPdfFilename (filename : Str) : Bool :=
  ".pdf".toList.isSuffixOf (filename.map Char.toLower)

/-- Environment of the /upload handler: the outcomes of saving the uploaded
file, extracting text from it, embedding a chunk, and upserting a record,
plus the generated document uuid. -/
structure UploadEnv (E : Type) where
  saveFile : Except String Unit
  extractText : Except String Str
  embed : Str → Except String E
  upsert : String → Str → E → Except String Unit
  uuid : String

/-- The body of upload_pdf (main.py lines 101-151): validate the filename,
save the upload, extract text, reject empty text with HTTP 400, build the
index and store one record per (chunk, embedding) pair with ids
{document_id}_chunk_{i}; the store is threaded explicitly. -/
def upload_body (env : UploadEnv E) (filename : Str) (store : Store E) :
    Except Exc UploadResponse × Store E :=
  if ¬ isPdfFilename filename then
    (.error (.http 400 "Only PDF files are supported"), store)
  else
    match env.saveFile with
    | .error m => (.error (.generic m), store)
    | .ok _ =>
        match env.extractText with
        | .error m => (.error (.generic m), store)
        | .ok text =>
            if text.isEmpty then
              (.error (.http 400 "No text could be extracted from the PDF"), store)
            else
              match build_index env.embed text with
              | .error m => (.error (.generic m), store)
              | .ok (chunks, embeddings) =>
                  match storeChunksFrom env.upsert
                      (fun i => env.uuid ++ "_chunk_" ++ toString i) 0
                      (chunks.zip embeddings) store with
                  | (some m, store2) => (.error (.generic m), store2)
                  | (none, store2) =>
                      (.ok ⟨"success",
                        "File indexed with " ++ toString chunks.length ++ " chunks",
                        chunks.length⟩, store2)

/-- The except-clauses of upload_pdf and upload_web: an HTTPException
re-raises unchanged; any other exception becomes HTTP 500 with the prefixed
message containing str(e). -/
def wrapHttpOr500 (pfx : String) (r : Except Exc A) : Except Exc A :=
  match r with
  | .ok a => .ok a
  | .error (.http st d) => .error (.http st d)
  | .error (.generic m) => .error (.http 500 (pfx ++ m))

/-- POST /upload (main.py lines 101-160). -/
def upload_pdf (env : UploadEnv E) (filename : Str) (store : Store E) :
    Except Exc UploadResponse × Store E :=
  ((wrapHttpOr500 "Failed to process PDF: " (upload_body env filename store).1),
    (upload_body env filename store).2)

/-- Environment of the /upload-web handler: chunk embedding and upsert
outcomes, and the stream of generated chunk uuids (the i-th chunk gets the
uuid uuids i). -/
structure WebUploadEnv (E : Type) where
  embed : Str → Except String E
  upsert : String → Str → E → Except String Unit
  uuids : Nat → String

/-- The body of upload_web (main.py lines 302-341): reject empty text with
HTTP 400, build the index, store one record per pair under fresh uuids. -/
def upload_web_body (env : WebUploadEnv E) (text : Str) (url : String)
    (store : Store E) : Except Exc WebUploadResponse × Store E :=
  if text.isEmpty then
    (.error (.http 400 "No text content provided"), store)
  else
    match build_index env.embed text with
    | .error m => (.error (.generic m), store)
    | .ok (chunks, embeddings) =>
        match storeChunksFrom env.upsert env.uuids 0 (chunks.zip embeddings) store with
        | (some m, store2) => (.error (.generic m), store2)
        | (none, store2) =>
            (.ok ⟨"success",
              "Webpage indexed with " ++ toString chunks.length ++ " chunks",
              chunks.length, url⟩, store2)

/-- POST /upload-web (main.py lines 302-341). -/
def upload_web (env : WebUploadEnv E) (text : Str) (url : String)
    (store : Store E) : Except Exc WebUploadResponse × Store E :=
  ((wrapHttpOr500 "Failed to process webpage: " (upload_web_body env text url store).1),
    (upload_web_body env text url store).2)

/-- Response of GET /documents. -/
structure ListDocumentsResponse where
  message : String
  note : String
deriving DecidableEq, Repr

/-- Response of DELETE /documents/{document_id}. -/
structure DeleteDocumentResponse where
  message : String
  document_id : String
deriving DecidableEq, Repr

/-- GET /documents (main.py lines 288-300): returns a fixed message and
touches no state. -/
def list_documents (store : Store E) : Except Exc ListDocumentsResponse × Store E :=
  (.ok ⟨"Document listing not fully implemented yet",
    "Documents are stored in Weaviate by chunks"⟩, store)

/-- DELETE /documents/{document_id} (main.py lines 343-355): returns a fixed
not-implemented message with the given id and touches no state. -/
def delete_document (document_id : String) (store : Store E) :
    Except Exc DeleteDocumentResponse × Store E :=
  (.ok ⟨"Document deletion not fully implemented yet", document_id⟩, store)

/-- The records the storage loop writes for a pair list, with the id of the
j-th pair given by mkId (i + j). -/
def chunkRecords (mkId : Nat → String) : Nat → List (Str × E) → Store E
  | _, [] => []
  | i, (c, e) :: rest => ⟨mkId i, c, e⟩ :: chunkRecords mkId (i + 1) rest

/-- A concrete /ask environment in which the Friendliai completion call
raises and the Gemini call succeeds. -/
def envC3 : AskEnv Nat Int where
  settings := ⟨some "key", none, some "gkey"⟩
  queryIndex := .ok 0
  querySimilar := fun _ => .ok [⟨"id1", ['d','o','c'], 1⟩]
  friendliaiCall := fun _ => .error "Friendliai connection refused"
  geminiCall := fun _ => .ok "fallback answer"
  uuid := "trace-1"

end ScreenPilot

namespace ScreenPilot

lemma buildChunks_nil : buildChunks [] = [] := by
  rw [buildChunks]

lemma buildChunks_cons (t : Str) (h : t ≠ []) :
    buildChunks t = t.take chunkSize :: buildChunks (t.drop chunkSize) := by
  cases t with
  | nil => exact absurd rfl h
  | cons c rest => rw [buildChunks]

/-- Number of chunks produced: the ceiling of length / chunkSize. -/
lemma buildChunks_length (t : Str) :
    (buildChunks t).length = (t.length + (chunkSize - 1)) / chunkSize := by
  generalize hn : t.length = n
  induction n using Nat.strong_induction_on generalizing t with
  | _ n ih =>
    cases t with
    | nil =>
      rw [buildChunks_nil]
      simp only [List.length_nil] at hn ⊢
      simp only [chunkSize]
      omega
    | cons c rest =>
      rw [buildChunks_cons _ (by simp), List.length_cons]
      rcases Nat.lt_or_ge ((c :: rest).length) chunkSize with hlt | hge
      · rw [List.drop_eq_nil_of_le (Nat.le_of_lt hlt), buildChunks_nil]
        have h1 : 1 ≤ n := by rw [← hn]; simp only [List.length_cons]; omega
        have h2 : n < chunkSize := by rw [← hn]; exact hlt
        simp only [List.length_nil, chunkSize] at h2 ⊢
        omega
      · have hdl : ((c :: rest).drop chunkSize).length = n - chunkSize := by
          rw [List.length_drop, hn]
        have hge2 : chunkSize ≤ n := by rw [← hn]; exact hge
        have hlt2 : n - chunkSize < n := by
          simp only [chunkSize] at hge2 ⊢
          omega
        rw [ih (n - chunkSize) hlt2 _ hdl]
        simp only [chunkSize] at hge2 ⊢
        omega

/-- The i-th chunk is the slice of the text from offset chunkSize*i to
chunkSize*(i+1). -/
lemma buildChunks_get (t : Str) (i : Nat) :
    (buildChunks t).get? i =
      if chunkSize * i < t.length then
        some ((t.drop (chunkSize * i)).take chunkSize)
      else none := by
  generalize hn : t.length = n
  induction n using Nat.strong_induction_on generalizing t i with
  | _ n ih =>
    cases t with
    | nil =>
      simp only [List.length_nil] at hn
      rw [buildChunks_nil]
      have : ¬ chunkSize * i < n := by simp only [chunkSize]; omega
      rw [if_neg this]
      rfl
    | cons c rest =>
      rw [buildChunks_cons _ (by simp)]
      cases i with
      | zero =>
        have hpos : 0 < n := by rw [← hn]; simp only [List.length_cons]; omega
        simp only [Nat.mul_zero, List.drop_zero, if_pos hpos]
        rfl
      | succ j =>
        simp only [List.get?]
        rcases Nat.lt_or_ge ((c :: rest).length) chunkSize with hlt | hge
        · rw [List.drop_eq_nil_of_le (Nat.le_of_lt hlt), buildChunks_nil]
          have h2 : n < chunkSize := by rw [← hn]; exact hlt
          have hcond : ¬ chunkSize * (j + 1) < n := by
            simp only [chunkSize] at h2 ⊢
            omega
          rw [if_neg hcond]
          rfl
        · have hdl : ((c :: rest).drop chunkSize).length = n - chunkSize := by
            rw [List.length_drop, hn]
          have hge2 : chunkSize ≤ n := by rw [← hn]; exact hge
          have hlt2 : n - chunkSize < n := by
            simp only [chunkSize] at hge2 ⊢
            omega
          rw [ih (n - chunkSize) hlt2 _ j hdl, List.drop_drop]
          have hoff : chunkSize + chunkSize * j = chunkSize * (j + 1) := by ring
          rw [hoff]
          have hiff : (chunkSize * j < n - chunkSize) ↔ (chunkSize * (j + 1) < n) := by
            simp only [chunkSize] at hge2 ⊢
            omega
          by_cases hc : chunkSize * (j + 1) < n
          · rw [if_pos (hiff.mpr hc), if_pos hc]
          · rw [if_neg (fun hcc => hc (hiff.mp hcc)), if_neg hc]

end ScreenPilot

namespace ScreenPilot

/-- Claim C2: the chunking step of build_index produces fixed-size
1000-character windows with no overlap by flat slicing: the i-th chunk is the
slice of the text from offset 1000*i to 1000*(i+1); every chunk except
possibly the last has exactly 1000 characters; the last chunk has between 1
and 1000 characters; the number of chunks is the ceiling of length/1000, and
the empty text yields zero chunks. -/
theorem C2_build_index_chunking (t : Str) :
    ((buildChunks t).length = (t.length + 999) / 1000)
    ∧ (∀ i, 1000 * i < t.length →
        (buildChunks t).get? i = some ((t.drop (1000 * i)).take 1000))
    ∧ (∀ i ch, i + 1 < (buildChunks t).length →
        (buildChunks t).get? i = some ch → ch.length = 1000)
    ∧ (∀ ch, t ≠ [] → (buildChunks t).get? ((buildChunks t).length - 1) = some ch →
        1 ≤ ch.length ∧ ch.length ≤ 1000)
    ∧ (t = [] → buildChunks t = []) := by
  have hlen := buildChunks_length t
  simp only [chunkSize] at hlen
  refine ⟨hlen, ?_, ?_, ?_, ?_⟩
  · intro i hi
    have hg := buildChunks_get t i
    simp only [chunkSize] at hg
    rw [hg, if_pos hi]
  · intro i ch hi hch
    have hg := buildChunks_get t i
    simp only [chunkSize] at hg
    rw [hg] at hch
    by_cases hc : 1000 * i < t.length
    · rw [if_pos hc] at hch
      have hch2 : ch = (t.drop (1000 * i)).take 1000 := by
        injection hch with h
        exact h.symm
      rw [hch2, List.length_take, List.length_drop]
      rw [hlen] at hi
      omega
    · rw [if_neg hc] at hch
      exact absurd hch (by simp)
  · intro ch hne hch
    have hg := buildChunks_get t ((buildChunks t).length - 1)
    simp only [chunkSize] at hg
    rw [hg] at hch
    have hpos : 0 < t.length := List.length_pos.mpr hne
    by_cases hc : 1000 * ((buildChunks t).length - 1) < t.length
    · rw [if_pos hc] at hch
      have hch2 : ch = (t.drop (1000 * ((buildChunks t).length - 1))).take 1000 := by
        injection hch with h
        exact h.symm
      rw [hch2, List.length_take, List.length_drop, hlen]
      rw [hlen] at hc
      omega
    · rw [if_neg hc] at hch
      exact absurd hch (by simp)
  · intro h
    rw [h, buildChunks_nil]

/-- Witness for C2 at a concrete five-character text: one chunk, equal to the
whole text, of length between 1 and 1000. -/
theorem C2_build_index_chunking_witness :
    ((buildChunks ['h','e','l','l','o']).length = (5 + 999) / 1000)
    ∧ (buildChunks ['h','e','l','l','o']).get? 0 =
        some ((List.drop (1000 * 0) ['h','e','l','l','o']).take 1000)
    ∧ (1 ≤ (['h','e','l','l','o'] : Str).length ∧
        (['h','e','l','l','o'] : Str).length ≤ 1000) := by
  have h := C2_build_index_chunking ['h','e','l','l','o']
  refine ⟨by rw [h.1]; rfl, h.2.1 0 (by decide), ?_⟩
  refine h.2.2.2.1 ['h','e','l','l','o'] (by simp) ?_
  have hl : (buildChunks ['h','e','l','l','o']).length = 1 := by
    rw [h.1]; rfl
  have hg := h.2.1 0 (by decide)
  rw [hl, hg]
  decide

/-- Claim C4: concatenating the chunks of build_index in order restores the
original text: the chunking is a lossless no-overlap partition. -/
theorem C4_chunks_concat_lossless (t : Str) : (buildChunks t).flatten = t := by
  generalize hn : t.length = n
  induction n using Nat.strong_induction_on generalizing t with
  | _ n ih =>
    cases t with
    | nil => rw [buildChunks_nil]; rfl
    | cons c rest =>
      rw [buildChunks_cons _ (by simp), List.flatten_cons]
      rcases Nat.lt_or_ge ((c :: rest).length) chunkSize with hlt | hge
      · rw [List.drop_eq_nil_of_le (Nat.le_of_lt hlt), buildChunks_nil]
        simp [List.take_of_length_le (Nat.le_of_lt hlt)]
      · have hdl : ((c :: rest).drop chunkSize).length = n - chunkSize := by
          rw [List.length_drop, hn]
        have hge2 : chunkSize ≤ n := by rw [← hn]; exact hge
        have hlt2 : n - chunkSize < n := by
          simp only [chunkSize] at hge2 ⊢
          omega
        rw [ih (n - chunkSize) hlt2 _ hdl]
        exact List.take_append_drop _ _

lemma wrapCatchAll_ok {σ : Type} (pfx : String) (body : Except String (AskResponse σ))
    (resp : AskResponse σ) :
    wrapCatchAll pfx body = .ok resp ↔ body = .ok resp := by
  unfold wrapCatchAll
  cases body <;> simp

lemma wrapHttpOr500_ok {A : Type} (pfx : String) (r : Except Exc A) (a : A) :
    wrapHttpOr500 pfx r = .ok a ↔ r = .ok a := by
  unfold wrapHttpOr500
  cases r with
  | ok b => simp
  | error e => cases e <;> simp

/-- A successful ask_body answer is either the empty-results short circuit or
carries the truncated retrieved texts as sources. -/
lemma ask_body_ok_sources {E σ : Type} (env : AskEnv E σ) (q : Str) (g : Bool)
    (resp : AskResponse σ) (h : ask_body env q g = .ok resp) :
    ∀ s ∈ resp.sources, ∃ t0 : Str, s.text = truncate_source_text t0 := by
  unfold ask_body at h
  split at h
  · simp at h
  · split at h
    · simp at h
    · split at h
      · simp only [Except.ok.injEq] at h
        subst h
        intro s hs2
        exact absurd hs2 (by simp)
      · split at h
        · simp at h
        · split at h
          · simp at h
          · simp only [Except.ok.injEq] at h
            subst h
            intro s hs2
            simp only [List.mem_map] at hs2
            obtain ⟨r, _, hr⟩ := hs2
            exact ⟨r.text, by rw [← hr]⟩

/-- Claim C6: the list and delete document endpoints are unimplemented stubs:
for every document_id and store, DELETE /documents/id returns the fixed
not-fully-implemented message together with the given id and leaves the store
unchanged, and GET /documents returns a fixed message and also leaves the
store unchanged. -/
theorem C6_stub_endpoints (E : Type) (document_id : String) (store : Store E) :
    delete_document document_id store =
      (.ok ⟨"Document deletion not fully implemented yet", document_id⟩, store)
    ∧ list_documents store =
      (.ok ⟨"Document listing not fully implemented yet",
        "Documents are stored in Weaviate by chunks"⟩, store) :=
  ⟨rfl, rfl⟩

/-- Claim C9: an /upload request whose filename does not end in ".pdf"
case-insensitively fails with HTTP 400 "Only PDF files are supported" and
leaves the store unchanged, and the outcome is reached before any effectful
operation: it does not depend on any of the environment functions (file save,
text extraction, chunk embedding, vector-store writes). -/
theorem C9_upload_rejects_non_pdf (E : Type) (env : UploadEnv E)
    (filename : Str) (store : Store E)
    (h : isPdfFilename filename = false) :
    upload_pdf env filename store =
      (.error (.http 400 "Only PDF files are supported"), store)
    ∧ ∀ env2 : UploadEnv E,
        upload_pdf env2 filename store = upload_pdf env filename store := by
  have hbody : ∀ env3 : UploadEnv E, upload_body env3 filename store =
      (.error (.http 400 "Only PDF files are supported"), store) := by
    intro env3
    unfold upload_body
    rw [h]
    simp
  constructor
  · unfold upload_pdf
    rw [hbody env]
    rfl
  · intro env2
    unfold upload_pdf
    rw [hbody env, hbody env2]

/-- Witness for C9: a concrete upload of "notes.txt" is rejected with the 400
error and does not change the store. -/
theorem C9_upload_rejects_non_pdf_witness :
    upload_pdf
      (⟨.ok (), .ok ['h','i'], fun _ => .ok (0 : Nat), fun _ _ _ => .ok (), "d"⟩ :
        UploadEnv Nat)
      ['n','o','t','e','s','.','t','x','t'] [] =
      (.error (.http 400 "Only PDF files are supported"), ([] : Store Nat)) :=
  (C9_upload_rejects_non_pdf Nat _ ['n','o','t','e','s','.','t','x','t'] []
    (by decide)).1

/-- Claim C8: when the vector store returns no similar chunks, /ask and
/ask-gemini return the fixed no-documents answer with an empty sources list,
and the completion model is never consulted: the outcome does not depend on
either completion-call function. -/
theorem C8_no_results_short_circuit (E σ : Type) (env : AskEnv E σ) (q : Str)
    (qv : E) (hq : env.queryIndex = .ok qv)
    (hs : env.querySimilar qv = .ok []) :
    ask_question env q = .ok ⟨noDocsAnswer, env.uuid, []⟩
    ∧ ask_question_gemini env q = .ok ⟨noDocsAnswer, env.uuid, []⟩
    ∧ (∀ fc gc,
        ask_question { env with friendliaiCall := fc, geminiCall := gc } q
          = ask_question env q
        ∧ ask_question_gemini { env with friendliaiCall := fc, geminiCall := gc } q
          = ask_question_gemini env q) := by
  have hbody : ∀ (g : Bool) (env2 : AskEnv E σ), env2.queryIndex = .ok qv →
      env2.querySimilar qv = .ok [] → env2.uuid = env.uuid →
      ask_body env2 q g = .ok ⟨noDocsAnswer, env.uuid, []⟩ := by
    intro g env2 h1 h2 h3
    unfold ask_body
    rw [h1]
    simp [h2, h3]
  refine ⟨?_, ?_, ?_⟩
  · unfold ask_question
    rw [hbody false env hq hs rfl]
    rfl
  · unfold ask_question_gemini
    rw [hbody true env hq hs rfl]
    rfl
  · intro fc gc
    constructor
    · unfold ask_question
      rw [hbody false { env with friendliaiCall := fc, geminiCall := gc } hq hs rfl,
        hbody false env hq hs rfl]
    · unfold ask_question_gemini
      rw [hbody true { env with friendliaiCall := fc, geminiCall := gc } hq hs rfl,
        hbody true env hq hs rfl]

/-- Witness for C8: a concrete environment with an empty retrieval result
short-circuits to the fixed answer, although both completion calls fail. -/
theorem C8_no_results_short_circuit_witness :
    ask_question
      (⟨⟨some "k", none, none⟩, .ok (0 : Nat),
        fun _ => .ok ([] : List (SimilarResult Int)),
        fun _ => .error "friendliai down", fun _ => .error "gemini down", "u0"⟩ :
        AskEnv Nat Int)
      ['q'] = .ok ⟨noDocsAnswer, "u0", []⟩ :=
  (C8_no_results_short_circuit Nat Int _ ['q'] 0 rfl rfl).1

/-- Claim C10: in every successful /ask and /ask-gemini response, each
sources entry carries a truncated text: retrieved text longer than 200
characters is cut to its first 200 characters followed by "...", text of at
most 200 characters is passed through unchanged, and every sources text
therefore has at most 203 characters. -/
theorem C10_source_text_truncation :
    (∀ t : Str,
        (truncate_source_text t).length ≤ 203
        ∧ (200 < t.length → truncate_source_text t = t.take 200 ++ "...".toList)
        ∧ (t.length ≤ 200 → truncate_source_text t = t))
    ∧ (∀ (E σ : Type) (env : AskEnv E σ) (q : Str) (resp : AskResponse σ),
        ask_question env q = .ok resp ∨ ask_question_gemini env q = .ok resp →
        ∀ s ∈ resp.sources, ∃ t0 : Str, s.text = truncate_source_text t0) := by
  constructor
  · intro t
    refine ⟨?_, ?_, ?_⟩
    · unfold truncate_source_text
      by_cases hl : 200 < t.length
      · rw [if_pos hl, List.length_append, List.length_take]
        have h3 : ("...".toList).length = 3 := rfl
        rw [h3]
        omega
      · rw [if_neg hl]
        omega
    · intro hl
      unfold truncate_source_text
      rw [if_pos hl]
    · intro hl
      unfold truncate_source_text
      rw [if_neg (by omega)]
  · intro E σ env q resp h s hs
    cases h with
    | inl h =>
      unfold ask_question at h
      rw [wrapCatchAll_ok] at h
      exact ask_body_ok_sources env q false resp h s hs
    | inr h =>
      unfold ask_question_gemini at h
      rw [wrapCatchAll_ok] at h
      exact ask_body_ok_sources env q true resp h s hs

lemma embedChunks_length {E : Type} (embed : Str → Except String E) :
    ∀ (chunks : List Str) (es : List E), embedChunks embed chunks = .ok es →
      es.length = chunks.length := by
  intro chunks
  induction chunks with
  | nil =>
    intro es h
    simp only [embedChunks, Except.ok.injEq] at h
    subst h
    rfl
  | cons c rest ih =>
    intro es h
    simp only [embedChunks] at h
    split at h
    · simp at h
    · split at h
      · simp at h
      · rename_i e he es2 hes2
        simp only [Except.ok.injEq] at h
        subst h
        simp [ih es2 hes2]

lemma build_index_ok {E : Type} (embed : Str → Except String E) (text : Str)
    (chunks : List Str) (es : List E)
    (h : build_index embed text = .ok (chunks, es)) :
    chunks = buildChunks text ∧ embedChunks embed (buildChunks text) = .ok es := by
  unfold build_index at h
  split at h
  · simp at h
  · rename_i es2 hes2
    simp only [Except.ok.injEq, Prod.mk.injEq] at h
    obtain ⟨h1, h2⟩ := h
    exact ⟨h1.symm, h2 ▸ hes2⟩

lemma chunkRecords_length {E : Type} (mkId : Nat → String) :
    ∀ (pairs : List (Str × E)) (i : Nat),
      (chunkRecords mkId i pairs).length = pairs.length := by
  intro pairs
  induction pairs with
  | nil => intro i; rfl
  | cons p rest ih =>
    intro i
    obtain ⟨c, e⟩ := p
    simp only [chunkRecords, List.length_cons, ih]

lemma storeChunksFrom_ok {E : Type} (upsert : String → Str → E → Except String Unit)
    (mkId : Nat → String) :
    ∀ (pairs : List (Str × E)) (i : Nat) (store store2 : Store E),
      storeChunksFrom upsert mkId i pairs store = (none, store2) →
      store2 = store ++ chunkRecords mkId i pairs := by
  intro pairs
  induction pairs with
  | nil =>
    intro i store store2 h
    simp only [storeChunksFrom, Prod.mk.injEq] at h
    rw [← h.2]
    simp [chunkRecords]
  | cons p rest ih =>
    intro i store store2 h
    obtain ⟨c, e⟩ := p
    simp only [storeChunksFrom] at h
    split at h
    · simp at h
    · have hrec := ih (i + 1) (store ++ [⟨mkId i, c, e⟩]) store2 h
      rw [hrec]
      simp [chunkRecords]

/-- Claim C7: every successful /upload run follows chunk-embed-store: exactly
one vector record per (chunk, embedding) pair of build_index is appended to
the store, in order, with ids document_id_chunk_i, and both chunks_created
and the message report exactly the number of chunks produced. -/
theorem C7_upload_success_pipeline (E : Type) (env : UploadEnv E)
    (filename : Str) (store store2 : Store E) (resp : UploadResponse)
    (h : upload_pdf env filename store = (.ok resp, store2)) :
    ∃ (text : Str) (chunks : List Str) (embeddings : List E),
      env.extractText = .ok text
      ∧ build_index env.embed text = .ok (chunks, embeddings)
      ∧ chunks = buildChunks text
      ∧ embeddings.length = chunks.length
      ∧ (chunks.zip embeddings).length = chunks.length
      ∧ store2 = store ++
          chunkRecords (fun i => env.uuid ++ "_chunk_" ++ toString i) 0
            (chunks.zip embeddings)
      ∧ (chunkRecords (fun i => env.uuid ++ "_chunk_" ++ toString i) 0
          (chunks.zip embeddings)).length = chunks.length
      ∧ resp.chunks_created = chunks.length
      ∧ resp.message = "File indexed with " ++ toString chunks.length ++ " chunks"
      ∧ resp.status = "success" := by
  unfold upload_pdf at h
  rw [Prod.mk.injEq] at h
  obtain ⟨h1, h2⟩ := h
  rw [wrapHttpOr500_ok] at h1
  rcases hub : upload_body env filename store with ⟨r, st⟩
  rw [hub] at h1 h2
  dsimp only at h1 h2
  unfold upload_body at hub
  split at hub
  · rw [Prod.mk.injEq] at hub
    rw [← hub.1] at h1
    simp at h1
  · split at hub
    · rw [Prod.mk.injEq] at hub
      rw [← hub.1] at h1
      simp at h1
    · split at hub
      · rw [Prod.mk.injEq] at hub
        rw [← hub.1] at h1
        simp at h1
      · rename_i text htext
        split at hub
        · rw [Prod.mk.injEq] at hub
          rw [← hub.1] at h1
          simp at h1
        · split at hub
          · rw [Prod.mk.injEq] at hub
            rw [← hub.1] at h1
            simp at h1
          · rename_i pr chunks embeddings hbi
            split at hub
            · rw [Prod.mk.injEq] at hub
              rw [← hub.1] at h1
              simp at h1
            · rename_i outp store3 hsc
              rw [Prod.mk.injEq] at hub
              obtain ⟨hr, hst⟩ := hub
              rw [← hr] at h1
              simp only [Except.ok.injEq] at h1
              subst h1
              obtain ⟨hch, hemb⟩ := build_index_ok env.embed text chunks embeddings hbi
              have hlen : embeddings.length = chunks.length := by
                rw [hch]
                exact embedChunks_length env.embed (buildChunks text) embeddings hemb
              have hzip : (chunks.zip embeddings).length = chunks.length := by
                rw [List.length_zip, hlen, Nat.min_self]
              refine ⟨text, chunks, embeddings, htext, hbi, hch, hlen, hzip, ?_, ?_, rfl, rfl, rfl⟩
              · rw [← h2, ← hst]
                exact storeChunksFrom_ok env.upsert _ (chunks.zip embeddings) 0 store store3 hsc
              · rw [chunkRecords_length, hzip]

/-- Witness for C7: a concrete successful two-character upload stores one
record and reports one chunk. -/
theorem C7_upload_success_pipeline_witness :
    ∃ (text : Str) (chunks : List Str) (embeddings : List Nat),
      (⟨.ok (), .ok ['h','i'], fun _ => .ok 7, fun _ _ _ => .ok (), "d"⟩ :
          UploadEnv Nat).extractText = .ok text
      ∧ build_index (⟨.ok (), .ok ['h','i'], fun _ => .ok 7, fun _ _ _ => .ok (), "d"⟩ :
          UploadEnv Nat).embed text = .ok (chunks, embeddings)
      ∧ chunks = buildChunks text
      ∧ embeddings.length = chunks.length
      ∧ (chunks.zip embeddings).length = chunks.length
      ∧ [(⟨"d" ++ "_chunk_" ++ toString 0, ['h','i'], 7⟩ :
            VectorRecord Nat)] = [] ++
          chunkRecords (fun i => "d" ++ "_chunk_" ++ toString i) 0
            (chunks.zip embeddings)
      ∧ (chunkRecords (fun i => "d" ++ "_chunk_" ++ toString i) 0
          (chunks.zip embeddings)).length = chunks.length
      ∧ ((⟨"success", "File indexed with " ++ toString 1 ++ " chunks", 1⟩ :
            UploadResponse)).chunks_created = chunks.length
      ∧ ((⟨"success", "File indexed with " ++ toString 1 ++ " chunks", 1⟩ :
            UploadResponse)).message
          = "File indexed with " ++ toString chunks.length ++ " chunks"
      ∧ ((⟨"success", "File indexed with " ++ toString 1 ++ " chunks", 1⟩ :
            UploadResponse)).status = "success" := by
  have hb : buildChunks ['h','i'] = [['h','i']] := by
    rw [buildChunks_cons _ (by simp), List.drop_eq_nil_of_le (by simp [chunkSize]),
      buildChunks_nil, List.take_of_length_le (by simp [chunkSize])]
  have h : upload_pdf
      (⟨.ok (), .ok ['h','i'], fun _ => .ok 7, fun _ _ _ => .ok (), "d"⟩ : UploadEnv Nat)
      ['a','.','p','d','f'] [] =
      (.ok ⟨"success", "File indexed with " ++ toString 1 ++ " chunks", 1⟩,
        [(⟨"d" ++ "_chunk_" ++ toString 0, ['h','i'], 7⟩ : VectorRecord Nat)]) := by
    simp only [upload_pdf, upload_body, build_index, hb, embedChunks, storeChunksFrom,
      isPdfFilename, wrapHttpOr500]
    norm_num [List.isSuffixOf]
    rw [if_neg (by decide)]
    exact ⟨rfl, rfl⟩
  exact C7_upload_success_pipeline Nat _ ['a','.','p','d','f'] [] _ _ h

lemma wrapHttpOr500_error {A : Type} (pfx : String) (r : Except Exc A) (e : Exc)
    (h : wrapHttpOr500 pfx r = .error e) :
    (∃ st d, r = .error (.http st d) ∧ e = .http st d)
    ∨ (∃ m, r = .error (.generic m) ∧ e = .http 500 (pfx ++ m)) := by
  unfold wrapHttpOr500 at h
  split at h
  · simp at h
  · rename_i st d
    injection h with h2
    exact Or.inl ⟨st, d, rfl, h2.symm⟩
  · rename_i m
    injection h with h2
    exact Or.inr ⟨m, rfl, h2.symm⟩

lemma upload_body_error_cases {E : Type} (env : UploadEnv E) (filename : Str)
    (store st : Store E) (e : Exc)
    (h : upload_body env filename store = (.error e, st)) :
    e = .http 400 "Only PDF files are supported"
    ∨ e = .http 400 "No text could be extracted from the PDF"
    ∨ ∃ m, e = .generic m := by
  unfold upload_body at h
  split at h
  · rw [Prod.mk.injEq] at h
    injection h.1 with h2
    exact Or.inl h2.symm
  · split at h
    · rw [Prod.mk.injEq] at h
      injection h.1 with h2
      exact Or.inr (Or.inr ⟨_, h2.symm⟩)
    · split at h
      · rw [Prod.mk.injEq] at h
        injection h.1 with h2
        exact Or.inr (Or.inr ⟨_, h2.symm⟩)
      · split at h
        · rw [Prod.mk.injEq] at h
          injection h.1 with h2
          exact Or.inr (Or.inl h2.symm)
        · split at h
          · rw [Prod.mk.injEq] at h
            injection h.1 with h2
            exact Or.inr (Or.inr ⟨_, h2.symm⟩)
          · split at h
            · rw [Prod.mk.injEq] at h
              injection h.1 with h2
              exact Or.inr (Or.inr ⟨_, h2.symm⟩)
            · rw [Prod.mk.injEq] at h
              exact absurd h.1 (by simp)

lemma upload_web_body_error_cases {E : Type} (env : WebUploadEnv E) (text : Str)
    (url : String) (store st : Store E) (e : Exc)
    (h : upload_web_body env text url store = (.error e, st)) :
    e = .http 400 "No text content provided"
    ∨ ∃ m, e = .generic m := by
  unfold upload_web_body at h
  split at h
  · rw [Prod.mk.injEq] at h
    injection h.1 with h2
    exact Or.inl h2.symm
  · split at h
    · rw [Prod.mk.injEq] at h
      injection h.1 with h2
      exact Or.inr ⟨_, h2.symm⟩
    · split at h
      · rw [Prod.mk.injEq] at h
        injection h.1 with h2
        exact Or.inr ⟨_, h2.symm⟩
      · rw [Prod.mk.injEq] at h
        exact absurd h.1 (by simp)

lemma wrapCatchAll_error {σ : Type} (pfx : String)
    (body : Except String (AskResponse σ)) (e : Exc)
    (h : wrapCatchAll pfx body = .error e) :
    ∃ m, body = .error m ∧ e = .http 500 (pfx ++ m) := by
  unfold wrapCatchAll at h
  split at h
  · simp at h
  · rename_i m
    injection h with h2
    exact ⟨m, rfl, h2.symm⟩

/-- Claim C5: for each of /upload, /ask, /ask-gemini and /upload-web, an
exception of the handler body that is not an HTTPException is caught and
re-raised as HTTP 500 whose detail is the handler prefix followed by the text
str(e) of the original error; an HTTPException raised inside the body (the
400 validation errors of /upload and /upload-web) is propagated with its
original status code and detail; and these are the only error outcomes: every
error is one of the body's 400s or such a prefixed 500. -/
theorem C5_exception_wrapping :
    (∀ (E : Type) (env : UploadEnv E) (filename : Str) (store : Store E) (m : String),
        (upload_body env filename store).1 = .error (.generic m) →
        (upload_pdf env filename store).1
          = .error (.http 500 ("Failed to process PDF: " ++ m)))
    ∧ (∀ (E : Type) (env : UploadEnv E) (filename : Str) (store : Store E)
          (st0 : Nat) (d : String),
        (upload_body env filename store).1 = .error (.http st0 d) →
        (upload_pdf env filename store).1 = .error (.http st0 d))
    ∧ (∀ (E : Type) (env : WebUploadEnv E) (text : Str) (url : String)
          (store : Store E) (m : String),
        (upload_web_body env text url store).1 = .error (.generic m) →
        (upload_web env text url store).1
          = .error (.http 500 ("Failed to process webpage: " ++ m)))
    ∧ (∀ (E : Type) (env : WebUploadEnv E) (text : Str) (url : String)
          (store : Store E) (st0 : Nat) (d : String),
        (upload_web_body env text url store).1 = .error (.http st0 d) →
        (upload_web env text url store).1 = .error (.http st0 d))
    ∧ (∀ (E σ : Type) (env : AskEnv E σ) (q : Str) (m : String),
        ask_body env q false = .error m →
        ask_question env q = .error (.http 500 ("Failed to process question: " ++ m)))
    ∧ (∀ (E σ : Type) (env : AskEnv E σ) (q : Str) (m : String),
        ask_body env q true = .error m →
        ask_question_gemini env q
          = .error (.http 500 ("Failed to process question with Gemini: " ++ m)))
    ∧ (∀ (E : Type) (env : UploadEnv E) (filename : Str) (store st : Store E) (e : Exc),
        upload_pdf env filename store = (.error e, st) →
        e = .http 400 "Only PDF files are supported"
        ∨ e = .http 400 "No text could be extracted from the PDF"
        ∨ ∃ m, e = .http 500 ("Failed to process PDF: " ++ m))
    ∧ (∀ (E : Type) (env : WebUploadEnv E) (text : Str) (url : String)
          (store st : Store E) (e : Exc),
        upload_web env text url store = (.error e, st) →
        e = .http 400 "No text content provided"
        ∨ ∃ m, e = .http 500 ("Failed to process webpage: " ++ m))
    ∧ (∀ (E σ : Type) (env : AskEnv E σ) (q : Str) (e : Exc),
        ask_question env q = .error e →
        ∃ m, e = .http 500 ("Failed to process question: " ++ m))
    ∧ (∀ (E σ : Type) (env : AskEnv E σ) (q : Str) (e : Exc),
        ask_question_gemini env q = .error e →
        ∃ m, e = .http 500 ("Failed to process question with Gemini: " ++ m)) := by
  refine ⟨?_, ?_, ?_, ?_, ?_, ?_, ?_, ?_, ?_, ?_⟩
  · intro E env filename store m h
    unfold upload_pdf
    dsimp only
    rw [h]
    rfl
  · intro E env filename store st0 d h
    unfold upload_pdf
    dsimp only
    rw [h]
    rfl
  · intro E env text url store m h
    unfold upload_web
    dsimp only
    rw [h]
    rfl
  · intro E env text url store st0 d h
    unfold upload_web
    dsimp only
    rw [h]
    rfl
  · intro E σ env q m h
    unfold ask_question
    rw [h]
    rfl
  · intro E σ env q m h
    unfold ask_question_gemini
    rw [h]
    rfl
  · intro E env filename store st e h
    unfold upload_pdf at h
    rw [Prod.mk.injEq] at h
    obtain ⟨h1, h2⟩ := h
    rcases hub : upload_body env filename store with ⟨r, st2⟩
    rw [hub] at h1
    dsimp only at h1
    rcases wrapHttpOr500_error _ r e h1 with ⟨s0, d0, hr, he⟩ | ⟨m, hr, he⟩
    · subst hr
      rcases upload_body_error_cases env filename store st2 _ hub with hc | hc | ⟨m, hc⟩
      · exact Or.inl (by rw [he, hc])
      · exact Or.inr (Or.inl (by rw [he, hc]))
      · exact absurd hc (by simp)
    · subst hr
      exact Or.inr (Or.inr ⟨m, he⟩)
  · intro E env text url store st e h
    unfold upload_web at h
    rw [Prod.mk.injEq] at h
    obtain ⟨h1, h2⟩ := h
    rcases hub : upload_web_body env text url store with ⟨r, st2⟩
    rw [hub] at h1
    dsimp only at h1
    rcases wrapHttpOr500_error _ r e h1 with ⟨s0, d0, hr, he⟩ | ⟨m, hr, he⟩
    · subst hr
      rcases upload_web_body_error_cases env text url store st2 _ hub with hc | ⟨m, hc⟩
      · exact Or.inl (by rw [he, hc])
      · exact absurd hc (by simp)
    · subst hr
      exact Or.inr ⟨m, he⟩
  · intro E σ env q e h
    unfold ask_question at h
    obtain ⟨m, _, he⟩ := wrapCatchAll_error _ _ e h
    exact ⟨m, he⟩
  · intro E σ env q e h
    unfold ask_question_gemini at h
    obtain ⟨m, _, he⟩ := wrapCatchAll_error _ _ e h
    exact ⟨m, he⟩

/-- Witness for C5: a generic file-save failure is re-raised as the prefixed
500 containing its message, a validation HTTPException propagates with its
original 400 status and detail, and a generic /ask embedding failure is
re-raised as the prefixed 500 containing its message. -/
theorem C5_exception_wrapping_witness :
    (upload_pdf (⟨.error "disk full", .ok ['h'], fun _ => .ok (0 : Nat),
        fun _ _ _ => .ok (), "d"⟩ : UploadEnv Nat) ['a','.','p','d','f'] []).1
      = .error (.http 500 ("Failed to process PDF: " ++ "disk full"))
    ∧ (upload_pdf (⟨.ok (), .ok ['h'], fun _ => .ok (0 : Nat),
        fun _ _ _ => .ok (), "d"⟩ : UploadEnv Nat)
        ['n','o','t','e','s','.','t','x','t'] []).1
      = .error (.http 400 "Only PDF files are supported")
    ∧ ask_question (⟨⟨some "k", none, none⟩, .error "embed service down",
        fun _ => .ok ([] : List (SimilarResult Int)), fun _ => .ok "a",
        fun _ => .ok "b", "u"⟩ : AskEnv Nat Int) ['q']
      = .error (.http 500 ("Failed to process question: " ++ "embed service down")) := by
  refine ⟨?_, ?_, ?_⟩
  · exact C5_exception_wrapping.1 Nat _ ['a','.','p','d','f'] [] "disk full" rfl
  · exact C5_exception_wrapping.2.1 Nat _ ['n','o','t','e','s','.','t','x','t'] []
      400 "Only PDF files are supported" rfl
  · exact C5_exception_wrapping.2.2.2.2.1 Nat Int _ ['q'] "embed service down" rfl

/-- Claim C3 (amended): a failure while embedding the question or while
retrieving similar chunks aborts the whole /ask or /ask-gemini request with
an HTTP 500 server error; a failure of the selected completion model is
retried once on the alternate model (Friendliai and Gemini fall back to each
other inside query_model), the request succeeding with the fallback answer
when that call succeeds and aborting with HTTP 500 only when both fail. -/
theorem C3_pipeline_failure_amended (E σ : Type) (env : AskEnv E σ) (q : Str) :
    (∀ m, env.queryIndex = .error m →
        ask_question env q = .error (.http 500 ("Failed to process question: " ++ m))
        ∧ ask_question_gemini env q
            = .error (.http 500 ("Failed to process question with Gemini: " ++ m)))
    ∧ (∀ qv m, env.queryIndex = .ok qv → env.querySimilar qv = .error m →
        ask_question env q = .error (.http 500 ("Failed to process question: " ++ m))
        ∧ ask_question_gemini env q
            = .error (.http 500 ("Failed to process question with Gemini: " ++ m)))
    ∧ (∀ qv results st, env.queryIndex = .ok qv → env.querySimilar qv = .ok results →
        results ≠ [] → FriendliaiClient.init env.settings = .ok st →
        (∀ m1 a, env.friendliaiCall (makePrompt results q) = .error m1 →
            env.geminiCall (makePrompt results q) = .ok a →
            ask_question env q = .ok ⟨a, env.uuid,
              results.map (fun r => ⟨r.id, truncate_source_text r.text, r.score⟩)⟩)
        ∧ (∀ m1 m2, env.friendliaiCall (makePrompt results q) = .error m1 →
            env.geminiCall (makePrompt results q) = .error m2 →
            ask_question env q
              = .error (.http 500 ("Failed to process question: " ++ m2)))
        ∧ (∀ m1 a, env.geminiCall (makePrompt results q) = .error m1 →
            env.friendliaiCall (makePrompt results q) = .ok a →
            ask_question_gemini env q = .ok ⟨a, env.uuid,
              results.map (fun r => ⟨r.id, truncate_source_text r.text, r.score⟩)⟩)
        ∧ (∀ m1 m2, env.geminiCall (makePrompt results q) = .error m1 →
            env.friendliaiCall (makePrompt results q) = .error m2 →
            ask_question_gemini env q
              = .error (.http 500 ("Failed to process question with Gemini: " ++ m2)))) := by
  refine ⟨?_, ?_, ?_⟩
  · intro m hqi
    constructor
    · simp [ask_question, ask_body, wrapCatchAll, hqi]
    · simp [ask_question_gemini, ask_body, wrapCatchAll, hqi]
  · intro qv m hqi hsim
    constructor
    · simp [ask_question, ask_body, wrapCatchAll, hqi, hsim]
    · simp [ask_question_gemini, ask_body, wrapCatchAll, hqi, hsim]
  · intro qv results st hqi hsim hne hinit
    have hie : results.isEmpty = false := by
      cases results with
      | nil => exact absurd rfl hne
      | cons a l => rfl
    refine ⟨?_, ?_, ?_, ?_⟩
    · intro m1 a hfc hgc
      simp [ask_question, ask_body, wrapCatchAll, query_model, hqi, hsim, hie,
        hinit, hfc, hgc]
    · intro m1 m2 hfc hgc
      simp [ask_question, ask_body, wrapCatchAll, query_model, hqi, hsim, hie,
        hinit, hfc, hgc]
    · intro m1 a hgc hfc
      simp [ask_question_gemini, ask_body, wrapCatchAll, query_model, hqi, hsim, hie,
        hinit, hfc, hgc]
    · intro m1 m2 hgc hfc
      simp [ask_question_gemini, ask_body, wrapCatchAll, query_model, hqi, hsim, hie,
        hinit, hfc, hgc]

/-- Counterexample for C3 as stated: in a concrete environment the completion
step (the Friendliai call selected by /ask) raises an exception, yet the
request does not abort: the model call is retried on Gemini and the request
succeeds with the fallback answer. -/
theorem C3_counterexample :
    envC3.friendliaiCall
        (makePrompt [⟨"id1", ['d','o','c'], (1 : Int)⟩] ['q'])
      = .error "Friendliai connection refused"
    ∧ ask_question envC3 ['q'] =
        .ok ⟨"fallback answer", "trace-1", [⟨"id1", ['d','o','c'], 1⟩]⟩ :=
  ⟨rfl, rfl⟩

/-- Witness for the amended C3 theorem: the Friendliai-fails direction for
/ask at envC3, and the Gemini-fails direction for /ask-gemini at a concrete
environment where only the Friendliai call succeeds. -/
theorem C3_pipeline_failure_amended_witness :
    ask_question envC3 ['q'] = .ok ⟨"fallback answer", "trace-1",
      [⟨"id1", ['d','o','c'], (1 : Int)⟩]⟩
    ∧ ask_question_gemini
        (⟨⟨some "key", none, some "gkey"⟩, .ok (0 : Nat),
          fun _ => .ok [⟨"id1", ['d','o','c'], (1 : Int)⟩],
          fun _ => .ok "friendliai answer", fun _ => .error "gemini down", "trace-2"⟩ :
          AskEnv Nat Int) ['q']
      = .ok ⟨"friendliai answer", "trace-2", [⟨"id1", ['d','o','c'], 1⟩]⟩ := by
  constructor
  · exact ((C3_pipeline_failure_amended Nat Int envC3 ['q']).2.2 0
      [⟨"id1", ['d','o','c'], 1⟩] _ rfl rfl (by simp) rfl).1
      "Friendliai connection refused" "fallback answer" rfl rfl
  · exact ((C3_pipeline_failure_amended Nat Int
      (⟨⟨some "key", none, some "gkey"⟩, .ok (0 : Nat),
        fun _ => .ok [⟨"id1", ['d','o','c'], (1 : Int)⟩],
        fun _ => .ok "friendliai answer", fun _ => .error "gemini down", "trace-2"⟩ :
        AskEnv Nat Int) ['q']).2.2 0
      [⟨"id1", ['d','o','c'], 1⟩] _ rfl rfl (by simp) rfl).2.2.1
      "gemini down" "friendliai answer" rfl rfl

/-- Claim C1 (code bug): at the input asserted by
test_dedicated_endpoint_success (a dedicated endpoint is configured and its
probe returns HTTP 200), FriendliaiClient.__init__ as implemented still
yields the hardcoded serverless base URL, while the resolver described by the
spec and by the repository tests yields the dedicated URL. -/
theorem C1_init_missing_endpoint_resolution :
    (FriendliaiClient.init
        ⟨some "test_key", some "https://custom.friendli.ai", some "test_gemini_key"⟩).map
        (fun st => st.friendliai_base_url) = .ok "https://api.friendli.ai"
    ∧ resolveBaseUrlSpec (some "https://custom.friendli.ai") (fun _ => .ok 200)
        = "https://custom.friendli.ai"
    ∧ "https://api.friendli.ai" ≠ "https://custom.friendli.ai" :=
  ⟨rfl, rfl, by decide⟩

/-- Witness for C10: the length bound at a 201-character text and the sources
of a concrete successful /ask response. -/
theorem C10_source_text_truncation_witness :
    (truncate_source_text (List.replicate 201 'a')).length ≤ 203
    ∧ (∀ s ∈ ((⟨"ans", "u", [⟨"id1", ['d','o','c'], (1 : Int)⟩]⟩ :
          AskResponse Int)).sources,
        ∃ t0 : Str, s.text = truncate_source_text t0) := by
  constructor
  · exact (C10_source_text_truncation.1 (List.replicate 201 'a')).1
  · exact C10_source_text_truncation.2 Nat Int
      ⟨⟨some "k", none, none⟩, .ok 0, fun _ => .ok [⟨"id1", ['d','o','c'], 1⟩],
        fun _ => .ok "ans", fun _ => .error "g", "u"⟩
      ['q'] _ (Or.inl rfl)

end ScreenPilot
